import Mathlib

/-!
Verification development for the logarithmic tonemapping operator
(`src/operators/logarithmic.h`, Tone Mapper, Schlick 1994 logarithmic mapping).

Floating-point arithmetic is modelled over the real numbers `ℝ`: `std::log10`
becomes `Real.logb 10`, `std::pow` becomes real exponentiation `Real.rpow`,
and the `(uint8_t)` cast of a nonnegative float becomes `Int.floor`
(truncation toward zero coincides with the floor on nonnegative values, and
every cast in the code happens after clamping to `[0,1]`).

The collaborators declared in `tonemap.h` (the `Parameter` value type, the
`Color3f` color sample, the `Image` read interface, the `clamp` helper and
the parameter mapping) are not part of the visible source; they are modelled
from the specification, as marked on each definition.
-/

namespace Tonemapper

noncomputable section

/-- Real-number model of `std::log10`. -/
def log10 (x : ℝ) : ℝ := Real.logb 10 x

/-- Modelled from the spec: the `clamp(value, min, max)` helper of `tonemap.h`
(not under `src/`), clamping a value into the inclusive range `[lo, hi]`. -/
def clamp (value lo hi : ℝ) : ℝ := min hi (max lo value)

/-- Modelled from the spec: the `Color3f` color sample of `tonemap.h`
(not under `src/`): three floats `r`, `g`, `b` in linear HDR space. -/
structure Color3f where
  r : ℝ
  g : ℝ
  b : ℝ

/-- Modelled from the spec: `Color3f::getLuminance`, the weighted sum
`0.212671*r + 0.71516*g + 0.072169*b`. -/
def Color3f.getLuminance (c : Color3f) : ℝ :=
  0.212671 * c.r + 0.71516 * c.g + 0.072169 * c.b

/-- Modelled from the spec: `Color3f::clampedValue`, clamping each channel
to `[0,1]`. -/
def Color3f.clampedValue (c : Color3f) : Color3f :=
  ⟨clamp c.r 0 1, clamp c.g 0 1, clamp c.b 0 1⟩

/-- Modelled from the spec: `Color3f::gammaCorrect`, raising each channel to
the power `1/gamma`. -/
def Color3f.gammaCorrect (c : Color3f) (gamma : ℝ) : Color3f :=
  ⟨c.r ^ (1 / gamma), c.g ^ (1 / gamma), c.b ^ (1 / gamma)⟩

/-- Scalar-times-color product `s * color` (componentwise). -/
def Color3f.smul (s : ℝ) (c : Color3f) : Color3f :=
  ⟨s * c.r, s * c.g, s * c.b⟩

/-- Color-by-scalar quotient `color / s` (componentwise). -/
def Color3f.divScalar (c : Color3f) (s : ℝ) : Color3f :=
  ⟨c.r / s, c.g / s, c.b / s⟩

/-- Modelled from the spec: the `Parameter` value type of `tonemap.h`
(not under `src/`): current value, inclusive range, shader-uniform name and
description.  The derived/read-only construction form carries no range and no
description, hence the `Option` fields. -/
structure Parameter where
  value : ℝ
  minValue : Option ℝ
  maxValue : Option ℝ
  uniform : String
  description : Option String

/-- Modelled from the spec: the user-adjustable `Parameter` constructor
`Parameter(value, min, max, uniformName, description)`. -/
def Parameter.adjustable (value lo hi : ℝ) (uniform descrip : String) : Parameter :=
  ⟨value, some lo, some hi, uniform, some descrip⟩

/-- Modelled from the spec: the derived/read-only `Parameter` constructor
`Parameter(value, uniformName)` used for `Lmax`. -/
def Parameter.readOnly (value : ℝ) (uniform : String) : Parameter :=
  ⟨value, none, none, uniform, none⟩

/-- Modelled from the spec: the operator's mapping from parameter keys to
`Parameter`s, as an association list.  `insertParam` is `parameters[key] = v`
(overwrite in place if the key is present, append otherwise). -/
def insertParam : List (String × Parameter) → String → Parameter → List (String × Parameter)
  | [], key, v => [(key, v)]
  | (k, v0) :: rest, key, v =>
    if k = key then (key, v) :: rest else (k, v0) :: insertParam rest key v

/-- Modelled from the spec: `parameters.at(key)`; a missing key is a lookup
failure, modelled as `none`. -/
def lookupParam : List (String × Parameter) → String → Option Parameter
  | [], _ => none
  | (k, v) :: rest, key => if k = key then some v else lookupParam rest key

/-- The keys of a parameter mapping, in storage order. -/
def keysOf (ps : List (String × Parameter)) : List String := ps.map Prod.fst

/-- Modelled from the spec: the `Image` read interface (external collaborator):
size, per-pixel access `ref(row, col)` and the precomputed maximum-luminance
statistic. -/
structure Image where
  width : ℕ
  height : ℕ
  ref : ℕ → ℕ → Color3f
  getMaximumLuminance : ℝ

/-- A 4-component float vector, as used by the GLSL fragment shader
(`x`,`y`,`z`,`w` standing for `r`,`g`,`b`,`a`). -/
structure Vec4 where
  x : ℝ
  y : ℝ
  z : ℝ
  w : ℝ

/-- Translated from the embedded fragment-shader text: `clampedValue` forces
alpha to `1.0`, then clamps all four components to `[0,1]`. -/
def shaderClampedValue (color : Vec4) : Vec4 :=
  let c := Vec4.mk color.x color.y color.z 1
  ⟨clamp c.x 0 1, clamp c.y 0 1, clamp c.z 0 1, clamp c.w 0 1⟩

/-- Translated from the embedded fragment-shader text: `gammaCorrect` raises
all four components to the power `1.0/gamma`. -/
def shaderGammaCorrect (gamma : ℝ) (color : Vec4) : Vec4 :=
  ⟨color.x ^ (1 / gamma), color.y ^ (1 / gamma),
   color.z ^ (1 / gamma), color.w ^ (1 / gamma)⟩

/-- Translated from the embedded fragment-shader text: `getLuminance` is the
weighted sum `0.212671*r + 0.71516*g + 0.072169*b`. -/
def shaderGetLuminance (color : Vec4) : ℝ :=
  0.212671 * color.x + 0.71516 * color.y + 0.072169 * color.z

/-- Translated from the embedded fragment-shader text: `adjustColor` is the
componentwise `Ld * color / L`. -/
def shaderAdjustColor (color : Vec4) (L Ld : ℝ) : Vec4 :=
  ⟨Ld * color.x / L, Ld * color.y / L, Ld * color.z / L, Ld * color.w / L⟩

/-- Translated from the embedded fragment-shader text: the fragment `main`.
The texel fetched from `source` is scaled by `exposure`, its luminance `L`
taken, `Ld = (log(1+p*L)/log(10)) / (log(1+q*exposure*Lmax)/log(10))`
computed with natural logarithms, the color adjusted by `Ld/L`, clamped with
alpha forced to `1`, and gamma-corrected. -/
def shaderMain (exposure gamma Lmax p q : ℝ) (texel : Vec4) : Vec4 :=
  let color := Vec4.mk (exposure * texel.x) (exposure * texel.y)
    (exposure * texel.z) (exposure * texel.w)
  let L := shaderGetLuminance color
  let Ld := (Real.log (1 + p * L) / Real.log 10) /
    (Real.log (1 + q * exposure * Lmax) / Real.log 10)
  let color2 := shaderAdjustColor color L Ld
  let color3 := shaderClampedValue color2
  shaderGammaCorrect gamma color3

/-- The operator's shader, represented by its display name and the denotation
of its fragment stage (translated from the embedded GLSL text). -/
structure Shader where
  name : String
  fragmentMain : ℝ → ℝ → ℝ → ℝ → ℝ → Vec4 → Vec4

/-- The `LogarithmicOperator` state: the parameter mapping, display name,
description and shader (from `TonemapOperator`, used by the visible code). -/
structure LogarithmicOperator where
  parameters : List (String × Parameter)
  name : String
  description : String
  shader : Shader

/-- The `LogarithmicOperator` constructor: registers the three user-adjustable
parameters, sets the display name and citation description, and initializes
the shader. -/
def LogarithmicOperator.init : LogarithmicOperator :=
  ⟨[("Gamma", Parameter.adjustable 2.2 0 10 "gamma" "Gamma correction value"),
    ("p", Parameter.adjustable 1 0 20 "p" "Exponent numerator scale factor"),
    ("q", Parameter.adjustable 1 0 20 "q" "Exponent denominator scale factor")],
   "Logarithmic",
   "Logarthmic Mapping\n\nDiscussed in \"Quantization Techniques for Visualization of High Dynamic Range Pictures\" by Schlick 1994.",
   ⟨"Logarithmic", shaderMain⟩⟩

/-- `LogarithmicOperator::map`: `L = exposure * Lw`;
`Ld = log10(1 + p*L) / log10(1 + q*exposure*Lmax)`. -/
def map (Lw exposure Lmax p q : ℝ) : ℝ :=
  let L := exposure * Lw
  let Ld := log10 (1 + p * L) / log10 (1 + q * exposure * Lmax)
  Ld

/-- `LogarithmicOperator::setParameters`: stores the image's maximum
luminance as the read-only parameter under key `"Lmax"`. -/
def setParameters (op : LogarithmicOperator) (image : Image) : LogarithmicOperator :=
  ⟨insertParam op.parameters "Lmax"
      (Parameter.readOnly image.getMaximumLuminance "Lmax"),
   op.name, op.description, op.shader⟩

/-- The per-pixel color pipeline of the body of `process`'s loop, before
quantization: luminance, `map`, scale by `Ld/Lw`, clamp, gamma-correct. -/
def cpuPixel (exposure gamma Lmax p q : ℝ) (color : Color3f) : Color3f :=
  let Lw := color.getLuminance
  let Ld := map Lw exposure Lmax p q
  (((Color3f.smul Ld color).divScalar Lw).clampedValue).gammaCorrect gamma

/-- The three bytes `process` writes for one pixel: each channel of the
pipeline's result times `255`, cast to `uint8_t` (truncation; the channels
are in `[0,1]` after clamping, so the cast is the floor). -/
def pixelBytes (exposure gamma Lmax p q : ℝ) (color : Color3f) : List ℤ :=
  let c := cpuPixel exposure gamma Lmax p q color
  [⌊255 * c.r⌋, ⌊255 * c.g⌋, ⌊255 * c.b⌋]

/-- The loop state of `process`: the bytes written to `dst` so far, the
caller-owned progress value, and (for specification purposes) the trace of
progress values observed after each increment. -/
structure ProcState where
  dst : List ℤ
  progress : ℝ
  trace : List ℝ

/-- One iteration of the inner loop of `process`: write the pixel's three
bytes, then increment the progress value by `delta`. -/
def procPixelStep (exposure gamma Lmax p q delta : ℝ) (color : Color3f)
    (s : ProcState) : ProcState :=
  ⟨s.dst ++ pixelBytes exposure gamma Lmax p q color,
   s.progress + delta,
   s.trace ++ [s.progress + delta]⟩

/-- The observable outcome of a `process` call: the bytes written to `dst`
(`none` when a missing-key lookup failure aborts the call before the loop),
the final progress value, and the trace of progress increments. -/
structure ProcResult where
  dst : Option (List ℤ)
  progress : ℝ
  trace : List ℝ

/-- `LogarithmicOperator::process`: zero the progress, compute the increment
`1/(width*height)`, read `Gamma`, `Lmax`, `p`, `q` from the parameter
mapping (a missing key aborts with the progress already zeroed and nothing
written), then loop over rows and columns writing three bytes per pixel and
incrementing the progress. -/
def process (op : LogarithmicOperator) (image : Image) (exposure : ℝ) : ProcResult :=
  let delta : ℝ := 1 / ((image.width * image.height : ℕ) : ℝ)
  match lookupParam op.parameters "Gamma", lookupParam op.parameters "Lmax",
      lookupParam op.parameters "p", lookupParam op.parameters "q" with
  | some gamma, some lmax, some p, some q =>
    let final : ProcState :=
      (List.range image.height).foldl (fun s i =>
        (List.range image.width).foldl (fun t j =>
          procPixelStep exposure gamma.value lmax.value p.value q.value delta
            (image.ref i j) t) s)
        ⟨[], 0, []⟩
    ⟨some final.dst, final.progress, final.trace⟩
  | _, _, _, _ => ⟨none, 0, []⟩

/-- `LogarithmicOperator::graph`: read `Gamma`, `Lmax`, `p`, `q` (a missing
key aborts), then `map` at exposure `1`, clamp to `[0,1]`, and raise to
`1/gamma`. -/
def graph (op : LogarithmicOperator) (value : ℝ) : Option ℝ :=
  match lookupParam op.parameters "Gamma", lookupParam op.parameters "Lmax",
      lookupParam op.parameters "p", lookupParam op.parameters "q" with
  | some gamma, some lmax, some p, some q =>
    some (clamp (map value 1 lmax.value p.value q.value) 0 1 ^ (1 / gamma.value))
  | _, _, _, _ => none

/-- The image's pixels in the order `process` visits them: row-major, the
outer loop over rows, the inner loop over columns. -/
def allPixels (image : Image) : List Color3f :=
  (List.range image.height).flatMap (fun i => (List.range image.width).map (image.ref i))

/-- Concrete 1×1 image with the constant pixel `(1,1,1)` and maximum
luminance `2`, used to instantiate theorems with hypotheses. -/
def imgA : Image := ⟨1, 1, fun _ _ => ⟨1, 1, 1⟩, 2⟩

/-- Concrete 0×5 (empty) image, used to instantiate theorems with
hypotheses. -/
def imgB : Image := ⟨0, 5, fun _ _ => ⟨0, 0, 0⟩, 0⟩

/-- A freshly constructed operator after one `setParameters` call. -/
def opA : LogarithmicOperator := setParameters LogarithmicOperator.init imgA

/-- A freshly constructed operator after one `setParameters` call on the
empty image. -/
def opB : LogarithmicOperator := setParameters LogarithmicOperator.init imgB

theorem lookup_insertParam (ps : List (String × Parameter)) (key k : String)
    (v : Parameter) :
    lookupParam (insertParam ps key v) k =
      if k = key then some v else lookupParam ps k := by
  induction ps with
  | nil =>
    by_cases h : k = key
    · subst h; simp [insertParam, lookupParam]
    · simp [insertParam, lookupParam, h, Ne.symm h]
  | cons head rest ih =>
    obtain ⟨k0, v0⟩ := head
    by_cases h1 : k0 = key
    · subst h1
      by_cases h2 : k = k0
      · subst h2; simp [insertParam, lookupParam]
      · simp [insertParam, lookupParam, h2, Ne.symm h2]
    · by_cases h2 : k0 = k
      · subst h2
        simp [insertParam, lookupParam, h1, Ne.symm h1, ih]
      · simp [insertParam, lookupParam, h1, h2, ih]

theorem keys_insertParam (ps : List (String × Parameter)) (key : String)
    (v : Parameter) :
    keysOf (insertParam ps key v) =
      if key ∈ keysOf ps then keysOf ps else keysOf ps ++ [key] := by
  induction ps with
  | nil => simp [insertParam, keysOf]
  | cons head rest ih =>
    obtain ⟨k0, v0⟩ := head
    by_cases h1 : k0 = key
    · subst h1; simp [insertParam, keysOf]
    · simp [insertParam, keysOf, h1, Ne.symm h1] at ih ⊢
      rw [ih]
      by_cases h2 : key ∈ rest.map Prod.fst <;> simp [h2, Ne.symm h1]

theorem foldl_procPixelStep (exposure gamma Lmax p q delta : ℝ)
    (cs : List Color3f) (s : ProcState) :
    cs.foldl (fun t c => procPixelStep exposure gamma Lmax p q delta c t) s =
      ⟨s.dst ++ cs.flatMap (pixelBytes exposure gamma Lmax p q),
       s.progress + cs.length * delta,
       s.trace ++ (List.range cs.length).map
         (fun k : ℕ => s.progress + ((k : ℝ) + 1) * delta)⟩ := by
  induction cs generalizing s with
  | nil => cases s; simp
  | cons c cs ih =>
    obtain ⟨d, pr, tr⟩ := s
    rw [List.foldl_cons, ih]
    simp only [procPixelStep, ProcState.mk.injEq, List.length_cons]
    refine ⟨by simp, by push_cast; ring, ?_⟩
    rw [List.range_succ_eq_map]
    simp only [List.map_cons, List.map_map, List.append_assoc,
      List.singleton_append]
    congr 1
    congr 1
    · push_cast; ring
    · refine List.map_congr_left ?_
      intro a _
      simp only [Function.comp]
      push_cast; ring

theorem length_allPixels (image : Image) :
    (allPixels image).length = image.height * image.width := by
  unfold allPixels
  rw [List.length_flatMap]
  simp only [Function.comp_def, List.length_map, List.length_range]
  rw [List.map_const', List.sum_replicate, List.length_range, smul_eq_mul]

theorem process_eq (op : LogarithmicOperator) (image : Image) (exposure : ℝ)
    (gP lmP pP qP : Parameter)
    (h1 : lookupParam op.parameters "Gamma" = some gP)
    (h2 : lookupParam op.parameters "Lmax" = some lmP)
    (h3 : lookupParam op.parameters "p" = some pP)
    (h4 : lookupParam op.parameters "q" = some qP) :
    process op image exposure =
      ⟨some ((allPixels image).flatMap
          (pixelBytes exposure gP.value lmP.value pP.value qP.value)),
        ((allPixels image).length : ℝ) *
          (1 / ((image.width * image.height : ℕ) : ℝ)),
        (List.range (allPixels image).length).map
          (fun k : ℕ => ((k : ℝ) + 1) *
            (1 / ((image.width * image.height : ℕ) : ℝ)))⟩ := by
  unfold process
  rw [h1, h2, h3, h4]
  have hfold :
      (allPixels image).foldl (fun t c =>
          procPixelStep exposure gP.value lmP.value pP.value qP.value
            (1 / ((image.width * image.height : ℕ) : ℝ)) c t)
        (⟨[], 0, []⟩ : ProcState) =
      (List.range image.height).foldl (fun s i =>
          (List.range image.width).foldl (fun t j =>
            procPixelStep exposure gP.value lmP.value pP.value qP.value
              (1 / ((image.width * image.height : ℕ) : ℝ))
              (image.ref i j) t) s)
        (⟨[], 0, []⟩ : ProcState) := by
    rw [allPixels, List.flatMap_def, List.foldl_flatten, List.foldl_map]
    simp only [List.foldl_map]
  dsimp only
  rw [← hfold, foldl_procPixelStep]
  simp

/-- Claim C1: for every `Lw`, `exposure`, `Lmax`, `p`, `q`, the function
`map` returns `log10(1 + p*(exposure*Lw)) / log10(1 + q*exposure*Lmax)` —
it forms `L = exposure*Lw` and takes the quotient of the two base-10
logarithms, with no clamping of the result (at `Lw = 9` and unit parameters
the value exceeds `1`). -/
theorem claim_C1 :
    (∀ Lw exposure Lmax p q : ℝ,
        map Lw exposure Lmax p q =
          log10 (1 + p * (exposure * Lw)) / log10 (1 + q * exposure * Lmax)) ∧
    1 < map 9 1 1 1 1 := by
  refine ⟨fun Lw exposure Lmax p q => rfl, ?_⟩
  have hm : map 9 1 1 1 1 = Real.logb 10 10 / Real.logb 10 2 := by
    unfold map log10
    norm_num
  rw [hm, Real.logb_self_eq_one (by norm_num)]
  have h0 : (0 : ℝ) < Real.logb 10 2 := Real.logb_pos (by norm_num) (by norm_num)
  have h1 : Real.logb 10 2 < 1 := by
    have h2 := Real.logb_lt_logb (b := 10) (by norm_num) (by norm_num)
      (by norm_num : (2 : ℝ) < 10)
    rwa [Real.logb_self_eq_one (by norm_num)] at h2
  exact one_lt_one_div h0 h1

/-- Claim C5: whenever `q*exposure*Lmax = 0` (in particular `Lmax = 0`),
`map`'s denominator `log10(1 + q*exposure*Lmax) = log10(1) = 0` and `map`
performs an unguarded division by that zero denominator; no guard exists on
this path (in IEEE float semantics the division yields `±infinity` or
`NaN`). -/
theorem claim_C5 (Lw exposure Lmax p q : ℝ) (h : q * exposure * Lmax = 0) :
    log10 (1 + q * exposure * Lmax) = 0 ∧
    map Lw exposure Lmax p q = log10 (1 + p * (exposure * Lw)) / 0 := by
  have hden : log10 (1 + q * exposure * Lmax) = 0 := by
    rw [h, add_zero]
    exact Real.logb_one
  refine ⟨hden, ?_⟩
  rw [show map Lw exposure Lmax p q =
      log10 (1 + p * (exposure * Lw)) / log10 (1 + q * exposure * Lmax) from rfl,
    hden]

/-- Witness for claim C5 at `Lw = 5`, `exposure = 1`, `Lmax = 0`, `p = 2`,
`q = 0`. -/
theorem claim_C5_witness :
    log10 (1 + (0 : ℝ) * 1 * 0) = 0 ∧
    map 5 1 0 2 0 = log10 (1 + 2 * (1 * 5)) / 0 :=
  claim_C5 5 1 0 2 0 (by simp)

/-- Claim C9: a newly constructed operator's parameter mapping holds exactly
the three user-adjustable entries `Gamma` (value `2.2`, range `[0,10]`),
`p` (value `1`, range `[0,20]`) and `q` (value `1`, range `[0,20]`), no
`Lmax` entry, display name `"Logarithmic"`, and a non-empty citation
description; the constructor is total. -/
theorem claim_C9 :
    LogarithmicOperator.init.parameters =
        [("Gamma", Parameter.adjustable 2.2 0 10 "gamma" "Gamma correction value"),
         ("p", Parameter.adjustable 1 0 20 "p" "Exponent numerator scale factor"),
         ("q", Parameter.adjustable 1 0 20 "q" "Exponent denominator scale factor")] ∧
    lookupParam LogarithmicOperator.init.parameters "Lmax" = none ∧
    LogarithmicOperator.init.name = "Logarithmic" ∧
    LogarithmicOperator.init.description ≠ "" :=
  ⟨rfl, rfl, rfl, by decide⟩

/-- Claim C4: on a freshly constructed operator, `process` and `graph` both
abort with a missing-key lookup failure — the mapping holds `Gamma`, `p`,
`q` but no `Lmax`, so nothing is written and no progress increment happens —
and after one `setParameters` call with any image the lookups succeed and
both operations produce a result. -/
theorem claim_C4 :
    (lookupParam LogarithmicOperator.init.parameters "Gamma").isSome = true ∧
    (lookupParam LogarithmicOperator.init.parameters "p").isSome = true ∧
    (lookupParam LogarithmicOperator.init.parameters "q").isSome = true ∧
    lookupParam LogarithmicOperator.init.parameters "Lmax" = none ∧
    (∀ (image : Image) (exposure : ℝ),
      process LogarithmicOperator.init image exposure = ⟨none, 0, []⟩) ∧
    (∀ value : ℝ, graph LogarithmicOperator.init value = none) ∧
    (∀ (image image2 : Image) (exposure : ℝ),
      ((process (setParameters LogarithmicOperator.init image) image2
          exposure).dst).isSome = true) ∧
    (∀ (image : Image) (value : ℝ),
      (graph (setParameters LogarithmicOperator.init image) value).isSome = true) :=
  ⟨rfl, rfl, rfl, rfl, fun _ _ => rfl, fun _ => rfl, fun _ _ _ => rfl,
   fun _ _ => rfl⟩

/-- Claim C3: for every input value, `graph` (with all parameters present)
returns `pow(clamp(map(value, 1, Lmax, p, q), 0, 1), 1/gamma)`: the core
formula with exposure fixed to `1`, then the clamp to `[0,1]`, then the
gamma correction, in that order; it is a pure function of the operator's
current parameter values and its input. -/
theorem claim_C3 (op : LogarithmicOperator) (value : ℝ)
    (gP lmP pP qP : Parameter)
    (h1 : lookupParam op.parameters "Gamma" = some gP)
    (h2 : lookupParam op.parameters "Lmax" = some lmP)
    (h3 : lookupParam op.parameters "p" = some pP)
    (h4 : lookupParam op.parameters "q" = some qP) :
    graph op value =
      some (clamp (map value 1 lmP.value pP.value qP.value) 0 1
        ^ (1 / gP.value)) := by
  unfold graph
  rw [h1, h2, h3, h4]

/-- Witness for claim C3 on the freshly constructed operator after
`setParameters` with the concrete image `imgA` (`Lmax = 2`), at input `1`. -/
theorem claim_C3_witness :
    graph opA 1 = some (clamp (map 1 1 2 1 1) 0 1 ^ (1 / (2.2 : ℝ))) :=
  claim_C3 opA 1 (Parameter.adjustable 2.2 0 10 "gamma" "Gamma correction value")
    (Parameter.readOnly 2 "Lmax")
    (Parameter.adjustable 1 0 20 "p" "Exponent numerator scale factor")
    (Parameter.adjustable 1 0 20 "q" "Exponent denominator scale factor")
    rfl rfl rfl rfl

/-- Claim C8: `setParameters` stores the image's maximum-luminance statistic
as the read-only parameter under key `"Lmax"`, overwriting any previous
`Lmax` entry in place (the key list either stays the same or gains a final
`"Lmax"`), and changes nothing else: every other key's entry, the name, the
description and the shader are unchanged. -/
theorem claim_C8 (op : LogarithmicOperator) (image : Image) :
    (setParameters op image).name = op.name ∧
    (setParameters op image).description = op.description ∧
    (setParameters op image).shader = op.shader ∧
    lookupParam (setParameters op image).parameters "Lmax" =
      some (Parameter.readOnly image.getMaximumLuminance "Lmax") ∧
    (∀ k : String, k ≠ "Lmax" →
      lookupParam (setParameters op image).parameters k =
        lookupParam op.parameters k) ∧
    keysOf (setParameters op image).parameters =
      (if "Lmax" ∈ keysOf op.parameters then keysOf op.parameters
       else keysOf op.parameters ++ ["Lmax"]) := by
  dsimp only [setParameters]
  refine ⟨rfl, rfl, rfl, ?_, ?_, keys_insertParam op.parameters "Lmax" _⟩
  · rw [lookup_insertParam]
    simp
  · intro k hk
    rw [lookup_insertParam, if_neg hk]

/-- Witness for claim C8 on the freshly constructed operator and image
`imgA`, at key `"Gamma"`. -/
theorem claim_C8_witness :
    lookupParam (setParameters LogarithmicOperator.init imgA).parameters "Gamma" =
      lookupParam LogarithmicOperator.init.parameters "Gamma" :=
  (claim_C8 LogarithmicOperator.init imgA).2.2.2.2.1 "Gamma" (by decide)

/-- Claim C2: with all parameters present, `process` visits the pixels in
row-major order (outer loop over rows, inner over columns) and for each
pixel appends exactly the three bytes obtained by taking the pixel's
luminance `Lw`, mapping it to `Ld`, scaling the color by `Ld/Lw`, clamping
each channel to `[0,1]`, gamma-correcting by `1/gamma`, and truncating
`255 * channel` (the floor, which on the clamped nonnegative channels is
the round-toward-zero `uint8_t` cast — not rounding to nearest). -/
theorem claim_C2 (op : LogarithmicOperator) (image : Image) (exposure : ℝ)
    (gP lmP pP qP : Parameter)
    (h1 : lookupParam op.parameters "Gamma" = some gP)
    (h2 : lookupParam op.parameters "Lmax" = some lmP)
    (h3 : lookupParam op.parameters "p" = some pP)
    (h4 : lookupParam op.parameters "q" = some qP) :
    (process op image exposure).dst =
      some ((List.range image.height).flatMap (fun i =>
        (List.range image.width).flatMap (fun j =>
          let color := image.ref i j
          let Lw := color.getLuminance
          let Ld := map Lw exposure lmP.value pP.value qP.value
          let c := (((Color3f.smul Ld color).divScalar
            Lw).clampedValue).gammaCorrect gP.value
          [⌊255 * c.r⌋, ⌊255 * c.g⌋, ⌊255 * c.b⌋]))) := by
  rw [process_eq op image exposure gP lmP pP qP h1 h2 h3 h4]
  dsimp only
  rw [allPixels, List.flatMap_assoc]
  simp only [List.flatMap_map]
  rfl

/-- Witness for claim C2 on the freshly constructed operator after
`setParameters` with the 1×1 image `imgA`, at exposure `1`. -/
theorem claim_C2_witness :
    (process opA imgA 1).dst =
      some ((List.range imgA.height).flatMap (fun i =>
        (List.range imgA.width).flatMap (fun j =>
          let color := imgA.ref i j
          let Lw := color.getLuminance
          let Ld := map Lw 1 2 1 1
          let c := (((Color3f.smul Ld color).divScalar
            Lw).clampedValue).gammaCorrect 2.2
          [⌊255 * c.r⌋, ⌊255 * c.g⌋, ⌊255 * c.b⌋]))) :=
  claim_C2 opA imgA 1
    (Parameter.adjustable 2.2 0 10 "gamma" "Gamma correction value")
    (Parameter.readOnly 2 "Lmax")
    (Parameter.adjustable 1 0 20 "p" "Exponent numerator scale factor")
    (Parameter.adjustable 1 0 20 "q" "Exponent denominator scale factor")
    rfl rfl rfl rfl

/-- Claim C7: with all parameters present and `W*H > 0`, `process`
increments the caller-owned progress exactly `W*H` times, the value after
the `k`-th pixel being `(k+1) * (1/(W*H))`; the trace of observed values is
strictly increasing and the final progress is exactly `1` in the real-number
model (within floating tolerance of `1.0` in float), reached only after the
last pixel. -/
theorem claim_C7 (op : LogarithmicOperator) (image : Image) (exposure : ℝ)
    (gP lmP pP qP : Parameter)
    (h1 : lookupParam op.parameters "Gamma" = some gP)
    (h2 : lookupParam op.parameters "Lmax" = some lmP)
    (h3 : lookupParam op.parameters "p" = some pP)
    (h4 : lookupParam op.parameters "q" = some qP)
    (hpos : 0 < image.width * image.height) :
    (process op image exposure).trace =
        (List.range (image.width * image.height)).map
          (fun k : ℕ => ((k : ℝ) + 1) *
            (1 / ((image.width * image.height : ℕ) : ℝ))) ∧
    List.Pairwise (fun a b : ℝ => a < b) (process op image exposure).trace ∧
    (process op image exposure).trace.length = image.width * image.height ∧
    (process op image exposure).progress = 1 := by
  have hne : ((image.width * image.height : ℕ) : ℝ) ≠ 0 :=
    Nat.cast_ne_zero.mpr (Nat.pos_iff_ne_zero.mp hpos)
  have hdelta : 0 < 1 / ((image.width * image.height : ℕ) : ℝ) :=
    one_div_pos.mpr (by exact_mod_cast hpos)
  rw [process_eq op image exposure gP lmP pP qP h1 h2 h3 h4]
  dsimp only
  have hlen : (allPixels image).length = image.width * image.height := by
    rw [length_allPixels, Nat.mul_comm]
  rw [hlen]
  refine ⟨rfl, ?_, by simp, ?_⟩
  · refine List.Pairwise.map _ ?_ (List.pairwise_lt_range _)
    intro x y hxy
    have hx1 : ((x : ℝ) + 1) < (y : ℝ) + 1 := by exact_mod_cast Nat.succ_lt_succ hxy
    exact mul_lt_mul_of_pos_right hx1 hdelta
  · rw [mul_one_div, div_self hne]

/-- Witness for claim C7 on the freshly constructed operator after
`setParameters` with the 1×1 image `imgA`, at exposure `1`. -/
theorem claim_C7_witness :
    (process opA imgA 1).trace =
        (List.range (imgA.width * imgA.height)).map
          (fun k : ℕ => ((k : ℝ) + 1) *
            (1 / ((imgA.width * imgA.height : ℕ) : ℝ))) ∧
    List.Pairwise (fun a b : ℝ => a < b) (process opA imgA 1).trace ∧
    (process opA imgA 1).trace.length = imgA.width * imgA.height ∧
    (process opA imgA 1).progress = 1 :=
  claim_C7 opA imgA 1
    (Parameter.adjustable 2.2 0 10 "gamma" "Gamma correction value")
    (Parameter.readOnly 2 "Lmax")
    (Parameter.adjustable 1 0 20 "p" "Exponent numerator scale factor")
    (Parameter.adjustable 1 0 20 "q" "Exponent denominator scale factor")
    rfl rfl rfl rfl (by decide)

/-- Claim C10: with all parameters present and `W*H = 0`, `process` writes
no bytes into `dst`, the progress is set to `0` before the loop and stays
`0` on return (no increment occurs, so the degenerate increment `1/(W*H)`
is never added). -/
theorem claim_C10 (op : LogarithmicOperator) (image : Image) (exposure : ℝ)
    (gP lmP pP qP : Parameter)
    (h1 : lookupParam op.parameters "Gamma" = some gP)
    (h2 : lookupParam op.parameters "Lmax" = some lmP)
    (h3 : lookupParam op.parameters "p" = some pP)
    (h4 : lookupParam op.parameters "q" = some qP)
    (hzero : image.width * image.height = 0) :
    process op image exposure = ⟨some [], 0, []⟩ := by
  have hpix : allPixels image = [] := by
    rcases Nat.mul_eq_zero.mp hzero with h | h <;> simp [allPixels, h]
  rw [process_eq op image exposure gP lmP pP qP h1 h2 h3 h4, hpix]
  simp

/-- Witness for claim C10 on the freshly constructed operator after
`setParameters` with the empty 0×5 image `imgB`, at exposure `1`. -/
theorem claim_C10_witness : process opB imgB 1 = ⟨some [], 0, []⟩ :=
  claim_C10 opB imgB 1
    (Parameter.adjustable 2.2 0 10 "gamma" "Gamma correction value")
    (Parameter.readOnly 0 "Lmax")
    (Parameter.adjustable 1 0 20 "p" "Exponent numerator scale factor")
    (Parameter.adjustable 1 0 20 "q" "Exponent denominator scale factor")
    rfl rfl rfl rfl rfl

theorem adjust_aux (X e t Lw : ℝ) (he : e ≠ 0) :
    X * (e * t) / (e * Lw) = X * t / Lw := by
  rw [show X * (e * t) = X * t * e by ring, show e * Lw = Lw * e by ring,
    mul_div_mul_right _ _ he]

/-- Claim C6: the embedded fragment shader and the CPU path compute the same
per-pixel transform: the luminance weights are the same constants
`0.212671`, `0.71516`, `0.072169` on both paths, and on every input texel
the shader pipeline (scale by exposure, `Ld` as a quotient of
natural-logarithm ratios, scale by `Ld/L`, clamp with alpha forced to `1`,
gamma-correct) produces exactly the color channels of the CPU per-pixel
pipeline used by `process`, with alpha `1`. -/
theorem claim_C6 :
    (∀ r g b a : ℝ,
      shaderGetLuminance ⟨r, g, b, a⟩ = Color3f.getLuminance ⟨r, g, b⟩) ∧
    (∀ exposure gamma Lmax p q r g b a : ℝ,
      shaderMain exposure gamma Lmax p q ⟨r, g, b, a⟩ =
        ⟨(cpuPixel exposure gamma Lmax p q ⟨r, g, b⟩).r,
         (cpuPixel exposure gamma Lmax p q ⟨r, g, b⟩).g,
         (cpuPixel exposure gamma Lmax p q ⟨r, g, b⟩).b, 1⟩) := by
  refine ⟨fun r g b a => rfl, ?_⟩
  intro e gamma lm p q r g b a
  rcases eq_or_ne e 0 with he | he
  · subst he
    unfold shaderMain shaderGetLuminance shaderAdjustColor shaderClampedValue
      shaderGammaCorrect cpuPixel Color3f.getLuminance Color3f.smul
      Color3f.divScalar Color3f.clampedValue Color3f.gammaCorrect map log10
      clamp
    simp [Real.logb_one]
  · have hL : 0.212671 * (e * r) + 0.71516 * (e * g) + 0.072169 * (e * b) =
        e * (0.212671 * r + 0.71516 * g + 0.072169 * b) := by ring
    unfold shaderMain shaderGetLuminance shaderAdjustColor shaderClampedValue
      shaderGammaCorrect cpuPixel Color3f.getLuminance Color3f.smul
      Color3f.divScalar Color3f.clampedValue Color3f.gammaCorrect map log10
    dsimp only
    rw [hL]
    simp only [Real.logb]
    rw [adjust_aux _ _ r _ he, adjust_aux _ _ g _ he, adjust_aux _ _ b _ he]
    rw [show clamp 1 0 1 = (1 : ℝ) from by simp [clamp], Real.one_rpow]

end

end Tonemapper
